import Mathlib

/-!
Verification development for the `agent-forge-streak` gateway client.

The repository is a JS client that connects to a remote agent gateway over
a WebSocket, authenticates with a signed device-identity handshake,
reconnects with jittered exponential backoff, correlates requests with
responses, keeps a durable offline queue, and incrementally parses a
semi-structured task/progress text protocol.

This file is a shallow embedding of the parts of the source the claims
talk about.  `src/src/gateway/connection.js` contains three successive
variants of the connection engine; the first (with the
`pendingRequests` table driven by `request`) is embedded under names
suffixed `V1`, the third (with device identity, the `connectSent` guard
and the `PAIRING` state) under plain names or `V3`.  Pure JS functions
become Lean functions; module-level mutable state becomes explicit state
records; timers become boolean "scheduled" flags plus explicit
fire/cancel transitions; `Math.random()` becomes an explicit rational
jitter parameter in `[0, 1)`.
-/

set_option maxRecDepth 8000

/-- Connection states of the gateway state machine
(`store.update('connection', …)` in `src/src/gateway/connection.js`). -/
inductive ConnState where
  | DISCONNECTED
  | CONNECTING
  | PAIRING
  | CONNECTED
  | RECONNECTING
deriving DecidableEq, Repr

/-- Persisted settings slice (`src/src/main.js`, `defaultState.settings`). -/
structure Settings where
  gatewayUrl : String
  authToken : String
  agentId : String
deriving DecidableEq, Repr

/-- Stats slice of the store (`defaultState.tasks.stats`). -/
structure StatsRec where
  streak : Nat
  hearts : Nat
  xp : Nat
  level : Nat
deriving DecidableEq, Repr

/-- A task item as the store holds it. -/
structure ItemRec where
  id : Nat
  text : String
  completed : Bool
deriving DecidableEq, Repr

/-- Tasks slice of the store (`defaultState.tasks`). -/
structure TasksRec where
  day : Option Nat
  stats : StatsRec
  items : List ItemRec
  rawMessage : Option String
deriving DecidableEq, Repr

/-- Connection slice of the store: the state plus the optional last
error / pairing-identifier string. -/
structure ConnectionRec where
  state : ConnState
  error : Option String
deriving DecidableEq, Repr

/-- An offline-queue item (`store.enqueue`): message text plus
idempotency key. -/
structure QueueItem where
  text : String
  idempotencyKey : String
deriving DecidableEq, Repr

/-- Full application state (`src/src/main.js`, `defaultState`). -/
structure AppState where
  settings : Settings
  tasks : TasksRec
  connection : ConnectionRec
  pendingQueue : List QueueItem
  deviceId : String
deriving DecidableEq, Repr

/-- The default connection slice: `{ state: 'DISCONNECTED', error: null }`. -/
def defaultConnection : ConnectionRec :=
  { state := .DISCONNECTED, error := none }

/-- `defaultState` from `src/src/main.js`; `devId` stands for the value
`getDeviceId()` reads (or mints) from its own localStorage key. -/
def defaultState (devId : String) : AppState :=
  { settings := { gatewayUrl := "", authToken := "", agentId := "agent:main" }
    tasks := { day := none
               stats := { streak := 0, hearts := 0, xp := 0, level := 1 }
               items := []
               rawMessage := none }
    connection := defaultConnection
    pendingQueue := []
    deviceId := devId }

/-- The shape `saveState` writes: `const { connection, ...persistable } =
state` — every state field except `connection`. -/
structure PersistedState where
  settings : Settings
  tasks : TasksRec
  pendingQueue : List QueueItem
  deviceId : String
deriving DecidableEq, Repr

/-- `saveState` (`src/src/main.js`): persists all fields but `connection`. -/
def saveState (s : AppState) : PersistedState :=
  { settings := s.settings
    tasks := s.tasks
    pendingQueue := s.pendingQueue
    deviceId := s.deviceId }

/-- `loadState` (`src/src/main.js`): spreads the saved record over the
defaults, then installs the default `connection` slice and a fresh
`deviceId`.  `none` models an absent or unparsable saved record (the
`catch` path falls through to the defaults). -/
def loadState (saved : Option PersistedState) (devId : String) : AppState :=
  match saved with
  | some p =>
      { settings := p.settings
        tasks := p.tasks
        pendingQueue := p.pendingQueue
        connection := defaultConnection
        deviceId := devId }
  | none => defaultState devId

/-! ## Handshake attempt (V3 engine): the `connectSent` guard -/

/-- JS `x || null` on an optional string: `undefined`, `null` and the
empty string collapse to `null`. -/
def jsOrNull : Option String → Option String
  | none => none
  | some s => if s = "" then none else some s

/-- Handshake-phase state of one connection attempt (third `connection.js`
variant): the `connectSent` idempotency guard, whether the
`CONNECT_SEND_DELAY` timer is still scheduled, the captured challenge
nonce, and a ghost count of connect request frames put on the socket. -/
structure AttemptState where
  connectSent : Bool
  connectTimer : Bool
  challengeNonce : Option String
  framesSent : Nat
deriving DecidableEq, Repr

/-- `sendConnect` (third variant): `if (connectSent) return;` — when a
connect request was already sent it does nothing; otherwise it marks the
attempt sent, cancels the send-delay timer via `clearTimeout`, and sends
exactly one connect request frame. -/
def sendConnect (s : AttemptState) : AttemptState :=
  if s.connectSent then s
  else { s with connectSent := true, connectTimer := false,
                framesSent := s.framesSent + 1 }

/-- The two handshake-phase occurrences: an unsolicited
`connect.challenge` event (with its optional nonce payload) and the
firing of the send-delay timeout. -/
inductive HsEvent where
  | challenge (nonce : Option String)
  | sendDelay
deriving DecidableEq, Repr

/-- One handshake event.  A challenge frame runs the challenge branch of
`handleMessage` (`challengeNonce = frame.payload?.nonce || null;
sendConnect()`); the send-delay timeout runs `sendConnect` but can only
fire while the timer is still scheduled (`sendConnect` itself clears it,
as does `cleanup`). -/
def hsStep (s : AttemptState) (e : HsEvent) : AttemptState :=
  match e with
  | .challenge n => sendConnect { s with challengeNonce := jsOrNull n }
  | .sendDelay => if s.connectTimer then sendConnect s else s

/-- Attempt state right after `ws.onopen`: nothing sent yet, send-delay
timer armed (`connectTimer = setTimeout(() => sendConnect(), 750)`). -/
def attemptStart : AttemptState :=
  { connectSent := false, connectTimer := true,
    challengeNonce := none, framesSent := 0 }

/-! ## Device auth payload (device-identity.js) -/

/-- Arguments of `buildDeviceAuthPayload`; `none` models a JS
`undefined`/`null` field. -/
structure AuthPayloadArgs where
  deviceId : String
  clientId : String
  clientMode : String
  role : String
  scopes : List String
  signedAtMs : Nat
  token : Option String
  nonce : Option String
deriving DecidableEq, Repr

/-- JS truthiness of an optional string: `undefined`, `null` and `""`
are falsy, every other string is truthy. -/
def truthyStr : Option String → Bool
  | none => false
  | some s => s != ""

/-- `buildDeviceAuthPayload` (`src/src/gateway/device-identity.js`):
`version = nonce ? 'v2' : 'v1'`; the eight base fields in order, with
`scopes.join(',')`, `String(signedAtMs)` and `token ?? ''`; for `v2` the
nonce is appended as a ninth field; all joined with `'|'`. -/
def buildDeviceAuthPayload (a : AuthPayloadArgs) : String :=
  let version := if truthyStr a.nonce then "v2" else "v1"
  let base := [version, a.deviceId, a.clientId, a.clientMode, a.role,
               String.intercalate "," a.scopes, toString a.signedAtMs,
               a.token.getD ""]
  let fields := if version = "v2" then base ++ [a.nonce.getD ""] else base
  String.intercalate "|" fields

/-- Modelled from the spec (for the refinement comparison of C9): the
plain canonical form — the fixed field order
`v1|deviceId|clientId|clientMode|role|scopes|signedAtMs|token`, with the
scope set comma-joined and no nonce field. -/
def specAuthPayloadPlain (a : AuthPayloadArgs) : String :=
  "v1|" ++ a.deviceId ++ "|" ++ a.clientId ++ "|" ++ a.clientMode ++ "|" ++
    a.role ++ "|" ++ String.intercalate "," a.scopes ++ "|" ++
    toString a.signedAtMs ++ "|" ++ a.token.getD ""

/-- Modelled from the spec (for the refinement comparison of C9): the
nonce-bound canonical form — the plain form with the nonce appended as
the final pipe-delimited field. -/
def specAuthPayloadNonce (a : AuthPayloadArgs) (nonce : String) : String :=
  "v2|" ++ a.deviceId ++ "|" ++ a.clientId ++ "|" ++ a.clientMode ++ "|" ++
    a.role ++ "|" ++ String.intercalate "," a.scopes ++ "|" ++
    toString a.signedAtMs ++ "|" ++ a.token.getD "" ++ "|" ++ nonce

/-! ## Offline queue flush -/

/-- `store.dequeue` (`src/src/main.js`): drops every queued item whose
idempotency key equals the given one. -/
def dequeue (q : List QueueItem) (key : String) : List QueueItem :=
  q.filter (fun i => i.idempotencyKey != key)

/-- `flushQueue` (third `connection.js` variant, lines 967–988): iterates
over the queue snapshot; `send` succeeds exactly when the socket is open
(`ws.readyState === OPEN`, constant through this synchronous loop), and a
successful send immediately runs `store.dequeue(item.idempotencyKey)` —
no acknowledgment is consulted before removal. -/
def flushQueueV3 (wsOpen : Bool) (queue : List QueueItem) : List QueueItem :=
  if queue.isEmpty then queue
  else queue.foldl
    (fun q item => if wsOpen then dequeue q item.idempotencyKey else q) queue

/-- `flushQueue` (first `connection.js` variant, lines 266–283): each item
is re-sent via `request(...)`, and `store.dequeue` runs only inside the
`.then` continuation, i.e. once the matching response resolves.  The
flush itself leaves the stored queue unchanged; the second component
lists the idempotency keys of the requests put in flight (none when the
socket is closed: `request` then rejects at once and the `.catch` keeps
the item for the next reconnect). -/
def flushQueueV1 (wsOpen : Bool) (queue : List QueueItem) :
    List QueueItem × List String :=
  (queue, if wsOpen then queue.map (fun i => i.idempotencyKey) else [])

/-- Resolution of one in-flight flush request in the first variant: the
`.then(() => store.dequeue(item.idempotencyKey))` continuation. -/
def ackFlushItem (queue : List QueueItem) (key : String) : List QueueItem :=
  dequeue queue key

/-! ## Reconnect backoff and the V3 engine state machine -/

/-- `RECONNECT_BASE` (`connection.js`). -/
def RECONNECT_BASE : ℚ := 1000

/-- `RECONNECT_CAP` (`connection.js`). -/
def RECONNECT_CAP : ℚ := 30000

/-- The deterministic part of `getReconnectDelay`:
`Math.min(RECONNECT_BASE * 2 ** reconnectAttempt, RECONNECT_CAP)`. -/
def reconnectBase (attempt : Nat) : ℚ :=
  min (RECONNECT_BASE * 2 ^ attempt) RECONNECT_CAP

/-- `getReconnectDelay` (`connection.js`): `base + base * 0.3 * r` where
`r` stands for the `Math.random()` draw in `[0, 1)`.  JS floats are
idealised as rationals. -/
def getReconnectDelay (attempt : Nat) (r : ℚ) : ℚ :=
  reconnectBase attempt + reconnectBase attempt * (3 / 10) * r

/-- Engine-level state of the third `connection.js` variant: the
`connection` store slice plus the module-level mutable variables the
claims mention.  Each timer is a boolean "currently scheduled" flag. -/
structure GatewayState where
  connection : ConnectionRec
  reconnectAttempt : Nat
  reconnectTimer : Bool
  connectTimer : Bool
  heartbeatTimer : Bool
  authenticated : Bool
  connectSent : Bool
  wsPresent : Bool
deriving DecidableEq, Repr

/-- `setState` (`connection.js`): writes the `connection` store slice. -/
def setState (st : ConnState) (err : Option String) (s : GatewayState) :
    GatewayState :=
  { s with connection := { state := st, error := err } }

/-- `cleanup` (third variant): stops the heartbeat, resets the handshake
flags, cancels the reconnect and send-delay timers, detaches and closes
the socket.  It does not touch the `connection` store slice. -/
def cleanupV3 (s : GatewayState) : GatewayState :=
  { s with heartbeatTimer := false
           authenticated := false
           connectSent := false
           reconnectTimer := false
           connectTimer := false
           wsPresent := false }

/-- `scheduleReconnect` (third variant): computes the delay from the
current attempt counter, increments the counter, sets state
`RECONNECTING`, and arms the reconnect timer.  Returns the new state and
the computed delay; `r` is the jitter draw. -/
def scheduleReconnect (r : ℚ) (s : GatewayState) : GatewayState × ℚ :=
  let delay := getReconnectDelay s.reconnectAttempt r
  ({ setState .RECONNECTING none
       { s with reconnectAttempt := s.reconnectAttempt + 1 } with
       reconnectTimer := true }, delay)

/-- The `hello-ok` branch of `handleMessage` (third variant): on a
non-error response to the connect request the engine marks itself
authenticated, resets the attempt counter to zero, transitions to
`CONNECTED` and starts the heartbeat. -/
def handleConnectOk (s : GatewayState) : GatewayState :=
  { setState .CONNECTED none
      { s with authenticated := true, reconnectAttempt := 0 } with
      heartbeatTimer := true }

/-- The `"NOT_PAIRED"` literal the error branch compares against. -/
def NOT_PAIRED : String := "NOT_PAIRED"

/-- `errMsg.includes('NOT_PAIRED')`: substring containment. -/
def containsNotPaired (msg : String) : Bool :=
  decide (NOT_PAIRED.data <:+: msg.data)

/-- The not-paired test of the error branch:
`errCode === 'NOT_PAIRED' || errMsg.includes('NOT_PAIRED')`. -/
def isNotPairedError (code msg : String) : Bool :=
  code == NOT_PAIRED || containsNotPaired msg

/-- The error branch of the connect-response handler (third variant).
`errorCode`/`errorMessage` are `frame.error?.code` and
`frame.error?.message`; the JS `|| ''` / `|| 'Connect rejected'`
defaults apply to missing or empty fields.  A not-paired error moves to
`PAIRING` carrying the device id and keeps the connection open; any
other error sets `DISCONNECTED` with the message and runs `cleanup`. -/
def handleConnectError (errorCode errorMessage : Option String)
    (deviceId : Option String) (s : GatewayState) : GatewayState :=
  let code := (jsOrNull errorCode).getD ""
  let msg := (jsOrNull errorMessage).getD "Connect rejected"
  if isNotPairedError code msg then
    setState .PAIRING (jsOrNull deviceId) s
  else
    cleanupV3 (setState .DISCONNECTED (some msg) s)

/-- `ws.onclose` (third variant): reads the previous state, runs
`cleanup`, then schedules a reconnect when the previous state was
`CONNECTED`, `CONNECTING` or `PAIRING`, and otherwise settles in
`DISCONNECTED`. -/
def onClose (r : ℚ) (s : GatewayState) : GatewayState :=
  let prev := s.connection.state
  let s' := cleanupV3 s
  if prev = .CONNECTED ∨ prev = .CONNECTING ∨ prev = .PAIRING then
    (scheduleReconnect r s').1
  else
    setState .DISCONNECTED none s'

/-! ## Pending-request table (V1 engine) -/

/-- Outcome with which a pending request promise settles. -/
inductive ReqOutcome where
  | resolved
  | timedOut
  | connectionClosed
  | notConnected
deriving DecidableEq, Repr

/-- State of the first `connection.js` variant around its
`pendingRequests` table.  `pendings` maps a request id to the timeout
duration it was registered with; `activeTimers` lists the ids whose
`setTimeout` is still scheduled; `outcomes` is a ghost log of settled
promises; the boolean flags model the heartbeat and reconnect timers and
the socket. -/
structure V1State where
  pendings : List (String × Nat)
  activeTimers : List String
  outcomes : List (String × ReqOutcome)
  heartbeatTimer : Bool
  reconnectTimer : Bool
  wsOpen : Bool
deriving DecidableEq, Repr

/-- Remove every entry for `id` from an association list. -/
def removeId (l : List (String × Nat)) (id : String) : List (String × Nat) :=
  l.filter (fun p => p.1 != id)

/-- `Map.get`-style lookup of an entry by request id. -/
def lookupId (l : List (String × Nat)) (id : String) : Option Nat :=
  match l with
  | [] => none
  | p :: rest => if p.1 = id then some p.2 else lookupId rest id

/-- `request` (first variant, lines 56–72): creates a 15 000 ms timeout,
registers `{resolve, reject, timeout}` under the fresh id, then attempts
the send; when the socket is not open it clears the timeout, deletes the
entry and rejects with `Not connected`. -/
def requestV1 (id : String) (s : V1State) : V1State :=
  let s1 := { s with pendings := (id, 15000) :: s.pendings
                     activeTimers := id :: s.activeTimers }
  if s.wsOpen then s1
  else { s1 with pendings := removeId s1.pendings id
                 activeTimers := s1.activeTimers.filter (fun x => x != id)
                 outcomes := (id, .notConnected) :: s1.outcomes }

/-- The response branch of `handleMessage` (first variant): when a `res`
frame carries the id of a pending entry, the engine clears that entry's
timeout, deletes the entry and resolves the promise. -/
def handleResponseV1 (id : String) (s : V1State) : V1State :=
  if (lookupId s.pendings id).isSome then
    { s with pendings := removeId s.pendings id
             activeTimers := s.activeTimers.filter (fun x => x != id)
             outcomes := (id, .resolved) :: s.outcomes }
  else s

/-- The firing of a request timeout (first variant): only a still
scheduled timer can fire; the callback deletes the entry and rejects
with `Request … timed out`. -/
def fireTimeoutV1 (id : String) (s : V1State) : V1State :=
  if id ∈ s.activeTimers then
    { s with pendings := removeId s.pendings id
             activeTimers := s.activeTimers.filter (fun x => x != id)
             outcomes := (id, .timedOut) :: s.outcomes }
  else s

/-- `cleanup` (first variant, lines 96–117): stops the heartbeat, cancels
the reconnect timer, and for every pending entry clears its timeout and
rejects with `Connection closed`; finally clears the table and detaches
and closes the socket. -/
def cleanupV1 (s : V1State) : V1State :=
  { s with heartbeatTimer := false
           reconnectTimer := false
           pendings := []
           activeTimers := []
           outcomes :=
             (s.pendings.map (fun p => (p.1, ReqOutcome.connectionClosed)))
               ++ s.outcomes
           wsOpen := false }

/-- `gateway.disconnect()` (first variant): `cleanup()` then
`setState('DISCONNECTED')`; only the cleanup part touches this record. -/
def disconnectV1 (s : V1State) : V1State :=
  cleanupV1 s

/-! ## Wire codec: `parseFrame` and a model of `JSON.parse` -/

/-- A JSON value.  Numbers keep their source lexeme (their numeric value
plays no role in any claim). -/
inductive JVal where
  | null
  | bool (b : Bool)
  | num (lexeme : String)
  | str (s : String)
  | arr (elems : List JVal)
  | obj (fields : List (String × JVal))

/-- JSON insignificant whitespace. -/
def jsonWsChar (c : Char) : Bool :=
  c = ' ' || c = '\t' || c = '\n' || c = '\r'

/-- Value of one hex digit. -/
def hexVal (c : Char) : Option Nat :=
  if '0' ≤ c ∧ c ≤ '9' then some (c.toNat - '0'.toNat)
  else if 'a' ≤ c ∧ c ≤ 'f' then some (c.toNat - 'a'.toNat + 10)
  else if 'A' ≤ c ∧ c ≤ 'F' then some (c.toNat - 'A'.toNat + 10)
  else none

/-- Body of a JSON string, after the opening quote; returns the decoded
characters and the rest of the input past the closing quote. -/
def parseJStringAux : Nat → List Char → List Char →
    Option (List Char × List Char)
  | 0, _, _ => none
  | fuel + 1, acc, cs =>
    match cs with
    | [] => none
    | '"' :: rest => some (acc.reverse, rest)
    | '\\' :: e :: rest =>
      match e with
      | '"' => parseJStringAux fuel ('"' :: acc) rest
      | '\\' => parseJStringAux fuel ('\\' :: acc) rest
      | '/' => parseJStringAux fuel ('/' :: acc) rest
      | 'b' => parseJStringAux fuel ('\x08' :: acc) rest
      | 'f' => parseJStringAux fuel ('\x0c' :: acc) rest
      | 'n' => parseJStringAux fuel ('\n' :: acc) rest
      | 'r' => parseJStringAux fuel ('\r' :: acc) rest
      | 't' => parseJStringAux fuel ('\t' :: acc) rest
      | 'u' =>
        match rest with
        | a :: b :: c :: d :: rest2 =>
          match hexVal a, hexVal b, hexVal c, hexVal d with
          | some ha, some hb, some hc, some hd =>
            parseJStringAux fuel
              (Char.ofNat (((ha * 16 + hb) * 16 + hc) * 16 + hd) :: acc) rest2
          | _, _, _, _ => none
        | _ => none
      | _ => none
    | ['\\'] => none
    | c :: rest =>
      if c.toNat < 0x20 then none else parseJStringAux fuel (c :: acc) rest

/-- Lexeme of a JSON number: `-? (0 | [1-9][0-9]*) frac? exp?`. -/
def parseJNumber (cs : List Char) : Option (List Char × List Char) :=
  let signed : List Char × List Char :=
    match cs with
    | '-' :: r => (['-'], r)
    | _ => ([], cs)
  match signed.2 with
  | [] => none
  | c :: r =>
    if ¬ c.isDigit then none
    else
      let intPart : List Char × List Char :=
        if c = '0' then ([c], r)
        else
          let sp := r.span Char.isDigit
          (c :: sp.1, sp.2)
      let fracPart : List Char × List Char :=
        match intPart.2 with
        | '.' :: r2 =>
          let sp := r2.span Char.isDigit
          if sp.1.isEmpty then ([], '.' :: r2) else ('.' :: sp.1, sp.2)
        | other => ([], other)
      let expPart : List Char × List Char :=
        match fracPart.2 with
        | e :: r3 =>
          if e = 'e' ∨ e = 'E' then
            let signExp : List Char × List Char :=
              match r3 with
              | s :: r4 => if s = '+' ∨ s = '-' then ([s], r4) else ([], r3)
              | [] => ([], r3)
            let sp := signExp.2.span Char.isDigit
            if sp.1.isEmpty then ([], e :: r3)
            else (e :: (signExp.1 ++ sp.1), sp.2)
          else ([], e :: r3)
        | [] => ([], [])
      if (match fracPart.1, intPart.2 with
          | [], '.' :: _ => true
          | _, _ => false) then none
      else if (match expPart.1, fracPart.2 with
          | [], 'e' :: _ => true
          | [], 'E' :: _ => true
          | _, _ => false) then none
      else
        some (signed.1 ++ intPart.1 ++ fracPart.1 ++ expPart.1, expPart.2)

mutual

/-- Recursive-descent JSON value parser; the fuel bounds nesting and
list length and is irrelevant once at least the input length. -/
def parseJVal : Nat → List Char → Option (JVal × List Char)
  | 0, _ => none
  | fuel + 1, cs =>
    let cs1 := cs.dropWhile jsonWsChar
    match cs1 with
    | [] => none
    | 'n' :: 'u' :: 'l' :: 'l' :: rest => some (.null, rest)
    | 't' :: 'r' :: 'u' :: 'e' :: rest => some (.bool true, rest)
    | 'f' :: 'a' :: 'l' :: 's' :: 'e' :: rest => some (.bool false, rest)
    | '"' :: rest =>
      match parseJStringAux (rest.length + 1) [] rest with
      | some (chars, rest2) => some (.str (String.mk chars), rest2)
      | none => none
    | '[' :: rest =>
      let rest1 := rest.dropWhile jsonWsChar
      match rest1 with
      | ']' :: rest2 => some (.arr [], rest2)
      | _ =>
        match parseJElems fuel rest with
        | some (elems, rest2) => some (.arr elems, rest2)
        | none => none
    | c :: rest =>
      if c = Char.ofNat 123 then
        let rest1 := rest.dropWhile jsonWsChar
        match rest1 with
        | r :: rest2 =>
          if r = Char.ofNat 125 then some (.obj [], rest2)
          else
            match parseJMembers fuel rest with
            | some (fields, rest3) => some (.obj fields, rest3)
            | none => none
        | [] => none
      else
        match parseJNumber cs1 with
        | some (lexeme, rest2) => some (.num (String.mk lexeme), rest2)
        | none => none

/-- One or more comma-separated array elements, ending at `]`. -/
def parseJElems : Nat → List Char → Option (List JVal × List Char)
  | 0, _ => none
  | fuel + 1, cs =>
    match parseJVal fuel cs with
    | none => none
    | some (v, rest) =>
      let rest1 := rest.dropWhile jsonWsChar
      match rest1 with
      | ']' :: rest2 => some ([v], rest2)
      | ',' :: rest2 =>
        match parseJElems fuel rest2 with
        | some (vs, rest3) => some (v :: vs, rest3)
        | none => none
      | _ => none

/-- One or more comma-separated object members, ending at the closing
brace. -/
def parseJMembers : Nat → List Char → Option (List (String × JVal) × List Char)
  | 0, _ => none
  | fuel + 1, cs =>
    let cs1 := cs.dropWhile jsonWsChar
    match cs1 with
    | '"' :: rest =>
      match parseJStringAux (rest.length + 1) [] rest with
      | none => none
      | some (keyChars, rest2) =>
        let rest3 := rest2.dropWhile jsonWsChar
        match rest3 with
        | ':' :: rest4 =>
          match parseJVal fuel rest4 with
          | none => none
          | some (v, rest5) =>
            let rest6 := rest5.dropWhile jsonWsChar
            match rest6 with
            | ',' :: rest7 =>
              match parseJMembers fuel rest7 with
              | some (fs, rest8) => some ((String.mk keyChars, v) :: fs, rest8)
              | none => none
            | r :: rest7 =>
              if r = Char.ofNat 125 then
                some ([(String.mk keyChars, v)], rest7)
              else none
            | [] => none
        | _ => none
    | _ => none

end

/-- Model of `JSON.parse`: a full JSON text, leading and trailing
whitespace allowed, nothing else; `none` models the thrown
`SyntaxError`. -/
def jsonParse (s : String) : Option JVal :=
  match parseJVal (s.data.length + 2) s.data with
  | some (v, rest) =>
    if (rest.dropWhile jsonWsChar).isEmpty then some v else none
  | none => none

/-- A value reaching `parseFrame`: either a string (the usual WebSocket
text payload) or an already structured non-string value (the
`typeof data === 'string'` test). -/
inductive JSData where
  | str (s : String)
  | val (v : JVal)

/-- The sentinel frame `{ type: 'unknown', raw: data }` built by the
`catch` branch of `parseFrame`. -/
def unknownFrame (raw : String) : JVal :=
  JVal.obj [("type", JVal.str "unknown"), ("raw", JVal.str raw)]

/-- `parseFrame` (`src/src/gateway/protocol.js`, identical in all three
variants): a string input is `JSON.parse`d, any parse failure is caught
and replaced by the sentinel unknown frame; a non-string input is
returned unchanged (and cannot throw). -/
def parseFrame (data : JSData) : JVal :=
  match data with
  | .val v => v
  | .str s =>
    match jsonParse s with
    | some v => v
    | none => unknownFrame s

/-! ## A small backtracking regex engine (ECMAScript semantics)

`device-identity.js` matches with two regex literals; the engine below
implements the JS backtracking order (alternatives left to right, greedy
pieces longest first, lazy pieces shortest first, a star never repeats
an empty-width iteration) over an explicit AST mirroring those
literals. -/

/-- Regex AST: exactly the constructs the two literals use.  `ch` is a
one-character class; the boolean on `star` marks a lazy quantifier. -/
inductive RE where
  | eps
  | ch (p : Char → Bool)
  | seq (a b : RE)
  | alt (a b : RE)
  | opt (r : RE)
  | star (lazy : Bool) (r : RE)
  | group (n : Nat) (r : RE)

/-- Backtracking matcher in continuation style.  `caps` accumulates
`(group, matched characters)` pairs, most recent first; `k` receives the
rest of the input and the captures; the fuel bounds the search depth and
is irrelevant once large enough. -/
def reMatch (fuel : Nat) (r : RE) (s : List Char)
    (caps : List (Nat × List Char))
    (k : List Char → List (Nat × List Char) →
         Option (List (Nat × List Char) × List Char)) :
    Option (List (Nat × List Char) × List Char) :=
  match fuel with
  | 0 => none
  | fuel + 1 =>
    match r with
    | .eps => k s caps
    | .ch p =>
      match s with
      | [] => none
      | c :: rest => if p c then k rest caps else none
    | .seq a b => reMatch fuel a s caps (fun s2 c2 => reMatch fuel b s2 c2 k)
    | .alt a b =>
      match reMatch fuel a s caps k with
      | some res => some res
      | none => reMatch fuel b s caps k
    | .opt r1 =>
      match reMatch fuel r1 s caps k with
      | some res => some res
      | none => k s caps
    | .star lz r1 =>
      if lz then
        match k s caps with
        | some res => some res
        | none =>
          reMatch fuel r1 s caps (fun s2 c2 =>
            if s2.length < s.length then reMatch fuel (.star lz r1) s2 c2 k
            else none)
      else
        match reMatch fuel r1 s caps (fun s2 c2 =>
            if s2.length < s.length then reMatch fuel (.star lz r1) s2 c2 k
            else none) with
        | some res => some res
        | none => k s caps
    | .group n r1 =>
      reMatch fuel r1 s caps (fun s2 c2 =>
        k s2 ((n, s.take (s.length - s2.length)) :: c2))

/-- Unanchored leftmost search, as `String.prototype.match` without the
`g` flag: try each start position in order, return the captures of the
first match. -/
def reSearch (fuel : Nat) (r : RE) : List Char → Option (List (Nat × List Char))
  | [] =>
    match reMatch fuel r [] [] (fun rest caps => some (caps, rest)) with
    | some (caps, _) => some caps
    | none => none
  | c :: rest =>
    match reMatch fuel r (c :: rest) [] (fun rest2 caps => some (caps, rest2)) with
    | some (caps, _) => some caps
    | none => reSearch fuel r rest

/-- Anchored `^…$` match of a whole string (the input lines contain no
newline, so the non-multiline anchors mean begin/end of the line). -/
def reMatchFull (fuel : Nat) (r : RE) (s : List Char) :
    Option (List (Nat × List Char)) :=
  match reMatch fuel r s []
      (fun rest caps => if rest.isEmpty then some (caps, rest) else none) with
  | some (caps, _) => some caps
  | none => none

/-- ECMAScript `\s`: WhiteSpace together with the line terminators. -/
def jsSpace (c : Char) : Bool :=
  c = ' ' || c = '\t' || c = '\n' || c.toNat = 0x0b || c.toNat = 0x0c ||
  c = '\r' || c.toNat = 0xa0 || c.toNat = 0x1680 ||
  (0x2000 ≤ c.toNat && c.toNat ≤ 0x200a) ||
  c.toNat = 0x2028 || c.toNat = 0x2029 || c.toNat = 0x202f ||
  c.toNat = 0x205f || c.toNat = 0x3000 || c.toNat = 0xfeff

/-- ECMAScript `\d`. -/
def jsDigit (c : Char) : Bool :=
  '0' ≤ c && c ≤ '9'

/-- `.` without the `s` flag: any character but a line terminator. -/
def jsDot (c : Char) : Bool :=
  !(c = '\n' || c = '\r' || c.toNat = 0x2028 || c.toNat = 0x2029)

/-- One character, case-insensitively (the `i` flag; ASCII folding
covers the letters appearing in the pattern). -/
def chCI (c : Char) : RE :=
  RE.ch (fun x => x.toLower = c.toLower)

/-- One exact character. -/
def chEq (c : Char) : RE :=
  RE.ch (fun x => x = c)

/-- Sequence of a list of pieces. -/
def seqAll (l : List RE) : RE :=
  l.foldr RE.seq RE.eps

/-- Case-insensitive literal. -/
def litCI (s : String) : RE :=
  seqAll (s.data.map chCI)

/-- Case-sensitive literal. -/
def litChars (l : List Char) : RE :=
  seqAll (l.map chEq)

/-- Greedy `+`: one occurrence, then a greedy star. -/
def plusGreedy (r : RE) : RE :=
  RE.seq r (RE.star false r)

/-- Greedy `*`. -/
def starGreedy (r : RE) : RE :=
  RE.star false r

/-- Left-to-right alternation of a nonempty list of branches. -/
def altAll : List RE → RE
  | [] => RE.ch (fun _ => false)
  | [r] => r
  | r :: rs => RE.alt r (altAll rs)

/-- The separator piece `\s*\|?\s*` of the stats pattern. -/
def sepRE : RE :=
  seqAll [starGreedy (RE.ch jsSpace), RE.opt (chEq '|'),
          starGreedy (RE.ch jsSpace)]

/-- The lazy gap `.*?`. -/
def gapRE : RE :=
  RE.star true (RE.ch jsDot)

/-- The label separator `[:\s]+`. -/
def colonSpRE : RE :=
  plusGreedy (RE.ch (fun c => c = ':' || jsSpace c))

/-- `STATS_PATTERN` (device-identity.js, flag `i`):
`Day\s+(\d+)\s*\|?\s*.*?Streak[:\s]+(\d+)\s*\|?\s*.*?Hearts?[:\s]+(\d+)`
`\s*\|?\s*.*?XP[:\s]+([\d,]+)\s*\|?\s*.*?Level[:\s]+(\d+)`. -/
def STATS_PATTERN : RE :=
  seqAll [litCI "Day", plusGreedy (RE.ch jsSpace),
          RE.group 1 (plusGreedy (RE.ch jsDigit)),
          sepRE, gapRE, litCI "Streak", colonSpRE,
          RE.group 2 (plusGreedy (RE.ch jsDigit)),
          sepRE, gapRE, litCI "Heart", RE.opt (chCI 's'), colonSpRE,
          RE.group 3 (plusGreedy (RE.ch jsDigit)),
          sepRE, gapRE, litCI "XP", colonSpRE,
          RE.group 4 (plusGreedy (RE.ch (fun c => jsDigit c || c = ','))),
          sepRE, gapRE, litCI "Level", colonSpRE,
          RE.group 5 (plusGreedy (RE.ch jsDigit))]

/-- First "done" completion marker, with the exact characters the stored
source file holds (the file keeps a double-encoded rendering of the
original emoji; these are the characters a JS engine loading the file
compares against): code points `U+00E2 U+0153 U+2026`. -/
def doneA : List Char :=
  [Char.ofNat 0xe2, Char.ofNat 0x153, Char.ofNat 0x2026]

/-- First "pending" marker, sans its optional trailing character:
`U+00E2 U+00AC U+0153 U+00EF`. -/
def pendA : List Char :=
  [Char.ofNat 0xe2, Char.ofNat 0xac, Char.ofNat 0x153, Char.ofNat 0xef]

/-- The optional trailing character (`?`-quantified) of `pendA`: `U+00B8`. -/
def pendATail : Char :=
  Char.ofNat 0xb8

/-- Second "done" marker: `U+00E2 U+02DC U+2018 U+00EF U+00B8`. -/
def doneB : List Char :=
  [Char.ofNat 0xe2, Char.ofNat 0x2dc, Char.ofNat 0x2018,
   Char.ofNat 0xef, Char.ofNat 0xb8]

/-- Second "pending" marker: `U+011F U+0178 U+201D U+00B2`. -/
def pendB : List Char :=
  [Char.ofNat 0x11f, Char.ofNat 0x178, Char.ofNat 0x201d, Char.ofNat 0xb2]

/-- Third "pending" marker: `U+00E2 U+2013 U+00AA U+00EF U+00B8`. -/
def pendC : List Char :=
  [Char.ofNat 0xe2, Char.ofNat 0x2013, Char.ofNat 0xaa,
   Char.ofNat 0xef, Char.ofNat 0xb8]

/-- The completion-marker alternation of `TASK_LINE_PATTERN`, in source
order: the glyph branches, then `\[x\]`, then `\[\s?\]`. -/
def markerRE : RE :=
  altAll [litChars doneA,
          RE.seq (litChars pendA) (RE.opt (chEq pendATail)),
          litChars doneB,
          litChars pendB,
          litChars pendC,
          litChars "[x]".data,
          seqAll [chEq '[', RE.opt (RE.ch jsSpace), chEq ']']]

/-- `TASK_LINE_PATTERN` (no flags):
`^\s*(\d+)\.\s*(markers)\s*(.+)$`, anchored over one line. -/
def TASK_LINE_PATTERN : RE :=
  seqAll [starGreedy (RE.ch jsSpace),
          RE.group 1 (plusGreedy (RE.ch jsDigit)),
          chEq '.', starGreedy (RE.ch jsSpace),
          RE.group 2 markerRE,
          starGreedy (RE.ch jsSpace),
          RE.group 3 (plusGreedy (RE.ch jsDot))]

/-! ## `parseTaskMessage` and the delta accumulator -/

/-- Fuel budget for the matcher; ample for the two fixed patterns. -/
def reFuel (cs : List Char) : Nat :=
  1000 * (cs.length + 10)

/-- `text.match(STATS_PATTERN)`: captures of the leftmost match. -/
def statsSearch (cs : List Char) : Option (List (Nat × List Char)) :=
  reSearch (reFuel cs) STATS_PATTERN cs

/-- `line.match(TASK_LINE_PATTERN)`: the pattern is anchored at both
ends. -/
def taskLineMatch (line : List Char) : Option (List (Nat × List Char)) :=
  reMatchFull (reFuel line) TASK_LINE_PATTERN line

/-- Capture lookup: the most recent value recorded for group `n`. -/
def capN (caps : List (Nat × List Char)) (n : Nat) : List Char :=
  (caps.lookup n).getD []

/-- `parseInt(s, 10)` on the strings this parser feeds it (no sign, no
leading whitespace): the leading decimal-digit run; `none` models `NaN`
when there is none (possible only for the comma-stripped XP capture). -/
def parseIntDec (cs : List Char) : Option Nat :=
  let ds := cs.takeWhile jsDigit
  if ds.isEmpty then none
  else some (ds.foldl (fun n c => n * 10 + (c.toNat - '0'.toNat)) 0)

/-- `String.prototype.trim`: strip the `\s` set at both ends. -/
def jsTrim (cs : List Char) : List Char :=
  ((cs.dropWhile jsSpace).reverse.dropWhile jsSpace).reverse

/-- `completed` (device-identity.js line 195): the captured marker is one
of the two "done" glyph sequences or `[x]`. -/
def isDoneMarker (check : List Char) : Bool :=
  check == doneA || check == doneB || check == "[x]".data

/-- The stats object as `parseTaskMessage` builds it.  A `none` field
models a JS `NaN` out of `parseInt` (only the comma-stripped XP capture
can actually produce one, each other capture being a nonempty digit
run). -/
structure ParsedStats where
  streak : Option Nat
  hearts : Option Nat
  xp : Option Nat
  level : Option Nat
deriving DecidableEq, Repr

/-- One parsed task line. -/
structure ParsedItem where
  id : Option Nat
  text : String
  completed : Bool
deriving DecidableEq, Repr

/-- Result record of `parseTaskMessage`.  `day` and `stats` are `none`
when the stats pattern did not match (the JS `null`); the group-1
capture is a nonempty digit run, so `parseInt` cannot yield `NaN` for
`day` and `none` is unambiguous. -/
structure ParsedTaskMessage where
  day : Option Nat
  stats : Option ParsedStats
  items : List ParsedItem
deriving DecidableEq, Repr

/-- One iteration of the task-line loop. -/
def parseTaskLine (line : List Char) : Option ParsedItem :=
  match taskLineMatch line with
  | some caps =>
    some { id := parseIntDec (capN caps 1)
           text := String.mk (jsTrim (capN caps 3))
           completed := isDoneMarker (capN caps 2) }
  | none => none

/-- `text.split('\n')` followed by the per-line task match. -/
def taskItems (cs : List Char) : List ParsedItem :=
  (cs.splitOn '\n').filterMap parseTaskLine

/-- `parseTaskMessage` (device-identity.js second part, lines 182–220).
For a string argument `!text` is true exactly for `""`; a text matching
neither the stats pattern nor any task line yields `none` (JS `null`);
otherwise day/stats come from the stats captures — commas stripped from
the XP capture before integer conversion — and `items` collects the
matching lines in order. -/
def parseTaskMessage (text : String) : Option ParsedTaskMessage :=
  if text = "" then none
  else
    let cs := text.data
    let statsMatch := statsSearch cs
    let items := taskItems cs
    if statsMatch.isNone && items.isEmpty then none
    else
      some { day := match statsMatch with
                    | some caps => parseIntDec (capN caps 1)
                    | none => none
             stats := statsMatch.map (fun caps =>
               { streak := parseIntDec (capN caps 2)
                 hearts := parseIntDec (capN caps 3)
                 xp := parseIntDec ((capN caps 4).filter (fun c => c != ','))
                 level := parseIntDec (capN caps 5) })
             items := items }

/-- `append(delta)` of `createDeltaAccumulator`: `buffer += delta`. -/
def accAppend (buf delta : String) : String :=
  buf ++ delta

/-- `parse()` of the accumulator: reads the buffer, returns
`parseTaskMessage(buffer)`, and leaves the buffer untouched (the second
component is the buffer after the call). -/
def accParse (buf : String) : Option ParsedTaskMessage × String :=
  (parseTaskMessage buf, buf)

/-- `reset()` of the accumulator. -/
def accReset (_ : String) : String :=
  ""

/-! ## Concrete claim inputs -/

/-- Concrete argument record with a present-but-empty nonce. -/
def emptyNonceArgs : AuthPayloadArgs :=
  { deviceId := "d1", clientId := "webchat", clientMode := "webchat",
    role := "operator", scopes := ["operator.read", "operator.write"],
    signedAtMs := 1700, token := some "tok", nonce := some "" }

/-- Concrete argument record with a non-empty nonce. -/
def realNonceArgs : AuthPayloadArgs :=
  { deviceId := "d1", clientId := "webchat", clientMode := "webchat",
    role := "operator", scopes := ["operator.read", "operator.write"],
    signedAtMs := 1700, token := some "tok", nonce := some "N7" }

/-! ## Helper lemmas -/

theorem foldl_hsStep_after_sent (l : List HsEvent) :
    ∀ s : AttemptState, s.connectSent = true →
      (l.foldl hsStep s).framesSent = s.framesSent := by
  induction l with
  | nil => intro s _; rfl
  | cons e rest ih =>
    intro s h
    have hstep : (hsStep s e).framesSent = s.framesSent ∧
        (hsStep s e).connectSent = true := by
      cases e with
      | challenge n => simp [hsStep, sendConnect, h]
      | sendDelay =>
        by_cases ht : s.connectTimer <;> simp [hsStep, sendConnect, h, ht]
    rw [List.foldl_cons, ih (hsStep s e) hstep.2, hstep.1]

theorem foldl_keep (l : List QueueItem) :
    ∀ acc : List QueueItem, l.foldl (fun q (_ : QueueItem) => q) acc = acc := by
  induction l with
  | nil => intro acc; rfl
  | cons a l ih => intro acc; rw [List.foldl_cons]; exact ih acc

theorem foldl_dequeue_nil (items : List QueueItem) :
    ∀ acc : List QueueItem,
      (∀ x ∈ acc, ∃ y ∈ items, y.idempotencyKey = x.idempotencyKey) →
      items.foldl (fun q item => dequeue q item.idempotencyKey) acc = [] := by
  induction items with
  | nil =>
    intro acc h
    cases acc with
    | nil => rfl
    | cons x xs =>
      obtain ⟨y, hy, _⟩ := h x (by simp)
      simp at hy
  | cons i rest ih =>
    intro acc h
    rw [List.foldl_cons]
    apply ih
    intro x hx
    have hxacc : x ∈ acc ∧ x.idempotencyKey ≠ i.idempotencyKey := by
      have := List.mem_filter.mp hx
      exact ⟨this.1, by simpa using this.2⟩
    obtain ⟨y, hy, hky⟩ := h x hxacc.1
    rcases List.mem_cons.mp hy with h1 | h2
    · exact absurd (h1 ▸ hky) (fun hk => hxacc.2 hk.symm)
    · exact ⟨y, h2, hky⟩

/-! ## Claim theorems -/

/-- C1: for every connection attempt and every nonempty interleaving of
the unsolicited challenge event and the send-delay timeout (challenge
before delay, delay before challenge, both firing), exactly one connect
request frame is sent on the socket during that attempt. -/
theorem connect_request_sent_exactly_once (l : List HsEvent) (h : l ≠ []) :
    (l.foldl hsStep attemptStart).framesSent = 1 := by
  cases l with
  | nil => exact absurd rfl h
  | cons e rest =>
    rw [List.foldl_cons]
    have h1 : (hsStep attemptStart e).framesSent = 1 ∧
        (hsStep attemptStart e).connectSent = true := by
      cases e with
      | challenge n => simp [hsStep, sendConnect, attemptStart]
      | sendDelay => simp [hsStep, sendConnect, attemptStart]
    rw [foldl_hsStep_after_sent rest _ h1.2, h1.1]

/-- Witness for C1: the interleaving where the challenge arrives first
and the send-delay timeout also fires. -/
theorem connect_request_sent_exactly_once_witness :
    (([HsEvent.challenge (some "abc"), HsEvent.sendDelay] : List HsEvent) ≠ []) ∧
    (([HsEvent.challenge (some "abc"),
       HsEvent.sendDelay] : List HsEvent).foldl hsStep attemptStart).framesSent = 1 :=
  ⟨by simp, connect_request_sent_exactly_once _ (by simp)⟩

/-- C5 counterexample: the cited `flushQueue` (third variant, lines
967–988) removes an item from the durable queue right after a successful
send: with the socket open and no acknowledgment of any kind consulted
(the function takes no response input at all), the sent-but-unacked item
does not remain in the queue. -/
theorem queue_item_removed_without_ack :
    flushQueueV3 true [{ text := "hi", idempotencyKey := "k1" }] = [] ∧
    ({ text := "hi", idempotencyKey := "k1" } : QueueItem) ∉
      flushQueueV3 true [{ text := "hi", idempotencyKey := "k1" }] := by
  decide

/-- C5 (amended): in the third-variant `flushQueue` an item is removed
exactly upon a confirmed send — when the socket is closed the send
fails and every item remains queued, when it is open every item is
dequeued by its idempotency key without waiting for an acknowledgment;
in the first-variant `flushQueue` the flush itself removes nothing and
an item is dequeued only when the response to its re-send resolves,
keyed by the item's idempotency key. -/
theorem queue_removal_policy :
    (∀ q : List QueueItem, flushQueueV3 false q = q) ∧
    (∀ q : List QueueItem, flushQueueV3 true q = []) ∧
    (∀ (wsOpen : Bool) (q : List QueueItem), (flushQueueV1 wsOpen q).1 = q) ∧
    (∀ (q : List QueueItem) (key : String),
       ackFlushItem q key = q.filter (fun i => i.idempotencyKey != key)) := by
  refine ⟨?_, ?_, fun _ _ => rfl, fun _ _ => rfl⟩
  · intro q
    cases q with
    | nil => rfl
    | cons x xs =>
      show (x :: xs).foldl (fun q (_ : QueueItem) => q) (x :: xs) = x :: xs
      exact foldl_keep _ _
  · intro q
    cases q with
    | nil => rfl
    | cons x xs =>
      show (x :: xs).foldl (fun q item => dequeue q item.idempotencyKey)
          (x :: xs) = []
      exact foldl_dequeue_nil _ _ (fun y hy => ⟨y, hy, rfl⟩)

/-- C6: `parse()` on the buffer holding the example stats line and the
two task lines returns day 42, stats `{streak 5, hearts 3, xp 1250,
level 7}` — the grouping comma of `1,250` stripped before integer
conversion — and the two items with their completion flags. -/
theorem parse_example_message :
    parseTaskMessage
        ("Day 42 | Streak: 5 | Hearts: 3 | XP: 1,250 | Level: 7\n1. [x] Review PR\n2. [ ] Write tests") =
      some { day := some 42
             stats := some { streak := some 5, hearts := some 3,
                             xp := some 1250, level := some 7 }
             items := [{ id := some 1, text := "Review PR", completed := true },
                       { id := some 2, text := "Write tests", completed := false }] } := by
  decide

/-- C7: appending `a` then `b` to the delta accumulator gives the same
buffer as appending `a ++ b` once, so the parses agree; `parse()` is
side-effect-free and idempotent (it leaves the buffer unchanged and
repeated calls return equal results); and on a buffer matching no stats
line and no task line it returns the no-data value `none`, not an
error. -/
theorem delta_accumulator_parse_algebra :
    (∀ buf a b : String, accAppend (accAppend buf a) b = accAppend buf (a ++ b)) ∧
    (∀ a b : String,
       (accParse (accAppend (accAppend "" a) b)).1 =
         (accParse (accAppend "" (a ++ b))).1) ∧
    (∀ s : String, (accParse s).2 = s ∧
       (accParse ((accParse s).2)).1 = (accParse s).1) ∧
    (∀ s : String, statsSearch s.data = none → taskItems s.data = [] →
       parseTaskMessage s = none) := by
  refine ⟨?_, ?_, fun s => ⟨rfl, rfl⟩, ?_⟩
  · intro buf a b
    simp [accAppend, String.append_assoc]
  · intro a b
    simp [accAppend, accParse, String.append_assoc]
  · intro s h1 h2
    unfold parseTaskMessage
    by_cases hs : s = ""
    · simp [hs]
    · simp [hs, h1, h2]

/-- Witness for C7: a buffer with no stats line and no task line parses
to the no-data value. -/
theorem delta_accumulator_parse_algebra_witness :
    statsSearch ("hello").data = none ∧ taskItems ("hello").data = [] ∧
      parseTaskMessage ("hello") = none :=
  ⟨by decide, by decide,
   delta_accumulator_parse_algebra.2.2.2 ("hello") (by decide) (by decide)⟩

/-- C8: `parseFrame` never throws — a non-string input passes through, a
string that `JSON.parse` accepts decodes to the parsed value, and a
string that cannot be parsed decodes to the sentinel
`{type: 'unknown', raw}` frame carrying the original payload. -/
theorem parse_frame_total_sentinel :
    (∀ v : JVal, parseFrame (JSData.val v) = v) ∧
    (∀ (s : String) (v : JVal), jsonParse s = some v →
       parseFrame (JSData.str s) = v) ∧
    (∀ s : String, jsonParse s = none →
       parseFrame (JSData.str s) = unknownFrame s) := by
  refine ⟨fun v => rfl, ?_, ?_⟩
  · intro s v h
    simp [parseFrame, h]
  · intro s h
    simp [parseFrame, h]

/-- Witness for C8: an unparsable payload decodes to the sentinel frame. -/
theorem parse_frame_total_sentinel_witness :
    jsonParse ("nope") = none ∧
      parseFrame (JSData.str ("nope")) = unknownFrame ("nope") :=
  ⟨rfl, parse_frame_total_sentinel.2.2 ("nope") rfl⟩

/-- C9 counterexample: with a nonce argument that is present but empty,
`buildDeviceAuthPayload` produces the plain `v1` form — eight fields and
no trailing nonce — not the nonce-bound form, so the form is not
selected solely by the presence of the nonce argument (JS truthiness of
the nonce decides, and `""` is falsy). -/
theorem nonce_empty_selects_plain_form :
    buildDeviceAuthPayload emptyNonceArgs = specAuthPayloadPlain emptyNonceArgs ∧
    buildDeviceAuthPayload emptyNonceArgs ≠ specAuthPayloadNonce emptyNonceArgs "" := by
  decide

/-- C9 (amended): `buildDeviceAuthPayload` deterministically serializes
its fields pipe-delimited in a fixed order, in exactly two forms — the
plain form when the nonce is absent or empty (JS-falsy), and the
nonce-bound form, nonce appended as the final field, when a non-empty
nonce is present; equal inputs give byte-for-byte equal payloads. -/
theorem auth_payload_two_forms :
    (∀ a : AuthPayloadArgs, truthyStr a.nonce = false →
       buildDeviceAuthPayload a = specAuthPayloadPlain a) ∧
    (∀ (a : AuthPayloadArgs) (nc : String), a.nonce = some nc → nc ≠ "" →
       buildDeviceAuthPayload a = specAuthPayloadNonce a nc) ∧
    (∀ a b : AuthPayloadArgs, a = b →
       buildDeviceAuthPayload a = buildDeviceAuthPayload b) := by
  refine ⟨?_, ?_, fun a b h => by rw [h]⟩
  · intro a h
    unfold buildDeviceAuthPayload
    rw [h]
    rfl
  · intro a nc h hnc
    have ht : truthyStr a.nonce = true := by
      simp [truthyStr, h, hnc]
    unfold buildDeviceAuthPayload
    rw [ht, h]
    simp only [Option.getD_some]
    rfl

/-- Witness for C9: a concrete non-empty nonce selects the nonce-bound
form. -/
theorem auth_payload_two_forms_witness :
    realNonceArgs.nonce = some "N7" ∧
    buildDeviceAuthPayload realNonceArgs = specAuthPayloadNonce realNonceArgs "N7" :=
  ⟨rfl, auth_payload_two_forms.2.1 realNonceArgs "N7" rfl (by decide)⟩

/-- C10: `saveState` writes every state field except `connection`, and
`loadState` installs the default connection slice, so after a restart
the observed connection state is `DISCONNECTED` with a `null` error
whatever it was at shutdown, while settings, tasks and the pending queue
are restored unchanged. -/
theorem restart_connection_reset (s : AppState) (devId : String) :
    saveState s = { settings := s.settings, tasks := s.tasks,
                    pendingQueue := s.pendingQueue, deviceId := s.deviceId } ∧
    (loadState (some (saveState s)) devId).connection =
      { state := .DISCONNECTED, error := none } ∧
    (loadState (some (saveState s)) devId).settings = s.settings ∧
    (loadState (some (saveState s)) devId).tasks = s.tasks ∧
    (loadState (some (saveState s)) devId).pendingQueue = s.pendingQueue :=
  ⟨rfl, rfl, rfl, rfl, rfl⟩

theorem lookupId_removeId (id : String) (l : List (String × Nat)) :
    lookupId (removeId l id) id = none := by
  induction l with
  | nil => rfl
  | cons p rest ih =>
    by_cases h : p.1 = id
    · simpa [removeId, List.filter_cons, h] using ih
    · simpa [removeId, List.filter_cons, h, lookupId] using ih

theorem not_mem_filter_ne (id : String) (l : List String) :
    id ∉ l.filter (fun x => x != id) := by
  simp [List.mem_filter]

/-- C2: the reconnect delay for attempt `n` is `min(base·2^n, cap)` plus
a jitter of at most 30 % of that value (base 1000 ms, cap 30000 ms); the
attempt counter increments on each scheduled reconnect and resets to
zero on every `CONNECTED` transition; below the cap consecutive delays
are monotonically non-decreasing whatever the jitter draws; and after a
success the delay is back at the base value 1000. -/
theorem reconnect_backoff_delay_spec :
    (∀ (n : ℕ) (r : ℚ), 0 ≤ r → r < 1 →
       getReconnectDelay n r =
         min ((1000 : ℚ) * 2 ^ n) 30000 +
           min ((1000 : ℚ) * 2 ^ n) 30000 * (3 / 10) * r ∧
       min ((1000 : ℚ) * 2 ^ n) 30000 * (3 / 10) * r ≤
         (3 / 10) * min ((1000 : ℚ) * 2 ^ n) 30000) ∧
    (∀ (r : ℚ) (s : GatewayState),
       ((scheduleReconnect r s).1).reconnectAttempt = s.reconnectAttempt + 1) ∧
    (∀ s : GatewayState, (handleConnectOk s).reconnectAttempt = 0 ∧
       (handleConnectOk s).connection.state = .CONNECTED) ∧
    (∀ (n : ℕ) (r r' : ℚ), 0 ≤ r → r < 1 → 0 ≤ r' → r' < 1 →
       (1000 : ℚ) * 2 ^ (n + 1) ≤ 30000 →
       getReconnectDelay n r ≤ getReconnectDelay (n + 1) r') ∧
    (reconnectBase 0 = 1000 ∧
     ∀ r : ℚ, getReconnectDelay 0 r = 1000 + 1000 * (3 / 10) * r) := by
  refine ⟨?_, fun r s => rfl, fun s => ⟨rfl, rfl⟩, ?_, ?_, ?_⟩
  · intro n r hr0 hr1
    refine ⟨rfl, ?_⟩
    have hB : (0 : ℚ) ≤ min ((1000 : ℚ) * 2 ^ n) 30000 :=
      le_min (by positivity) (by norm_num)
    nlinarith [mul_nonneg hB (sub_nonneg.mpr hr1.le)]
  · intro n r r' hr0 hr1 hr0' _ hcap
    have hA : (0 : ℚ) < 1000 * 2 ^ n := by positivity
    have hgrow : (1000 : ℚ) * 2 ^ (n + 1) = 2 * (1000 * 2 ^ n) := by
      rw [pow_succ]; ring
    have hAle : (1000 : ℚ) * 2 ^ n ≤ 30000 := by nlinarith
    have hm1 : reconnectBase n = 1000 * 2 ^ n := by
      unfold reconnectBase RECONNECT_BASE RECONNECT_CAP
      exact min_eq_left hAle
    have hm2 : reconnectBase (n + 1) = 2 * (1000 * 2 ^ n) := by
      unfold reconnectBase RECONNECT_BASE RECONNECT_CAP
      rw [hgrow]
      exact min_eq_left (by nlinarith)
    unfold getReconnectDelay
    rw [hm1, hm2]
    nlinarith [mul_nonneg hA.le hr0', mul_nonneg hA.le (sub_nonneg.mpr hr1.le)]
  · unfold reconnectBase RECONNECT_BASE RECONNECT_CAP
    norm_num
  · intro r
    unfold getReconnectDelay reconnectBase RECONNECT_BASE RECONNECT_CAP
    norm_num

/-- Witness for C2: the delay formula at attempt 1 with jitter 1/2, and
monotonicity from attempt 1 to attempt 2 (both below the cap). -/
theorem reconnect_backoff_delay_spec_witness :
    getReconnectDelay 1 (1 / 2) =
      min ((1000 : ℚ) * 2 ^ 1) 30000 +
        min ((1000 : ℚ) * 2 ^ 1) 30000 * (3 / 10) * (1 / 2) ∧
    getReconnectDelay 1 (1 / 2) ≤ getReconnectDelay 2 (1 / 4) :=
  ⟨(reconnect_backoff_delay_spec.1 1 (1 / 2) (by norm_num) (by norm_num)).1,
   reconnect_backoff_delay_spec.2.2.2.1 1 (1 / 2) (1 / 4) (by norm_num)
     (by norm_num) (by norm_num) (by norm_num) (by norm_num)⟩

/-- C3: `request` registers the fresh id in the pending table with a
15-second timeout and a live timer; a matching response resolves and
removes the entry and cancels its timer; the timeout fires only while
scheduled, rejects and removes the entry; `disconnect()` rejects every
outstanding request with `Connection closed` and leaves no entry and no
timer of any kind behind. -/
theorem pending_request_lifecycle :
    (∀ (s : V1State) (id : String), s.wsOpen = true →
       lookupId (requestV1 id s).pendings id = some 15000 ∧
       id ∈ (requestV1 id s).activeTimers) ∧
    (∀ (s : V1State) (id : String), (lookupId s.pendings id).isSome →
       lookupId (handleResponseV1 id s).pendings id = none ∧
       id ∉ (handleResponseV1 id s).activeTimers ∧
       (id, ReqOutcome.resolved) ∈ (handleResponseV1 id s).outcomes) ∧
    (∀ (s : V1State) (id : String), id ∈ s.activeTimers →
       lookupId (fireTimeoutV1 id s).pendings id = none ∧
       id ∉ (fireTimeoutV1 id s).activeTimers ∧
       (id, ReqOutcome.timedOut) ∈ (fireTimeoutV1 id s).outcomes) ∧
    (∀ s : V1State,
       (disconnectV1 s).pendings = [] ∧
       (disconnectV1 s).activeTimers = [] ∧
       (disconnectV1 s).heartbeatTimer = false ∧
       (disconnectV1 s).reconnectTimer = false ∧
       ∀ p ∈ s.pendings,
         (p.1, ReqOutcome.connectionClosed) ∈ (disconnectV1 s).outcomes) := by
  refine ⟨?_, ?_, ?_, ?_⟩
  · intro s id h
    simp [requestV1, h, lookupId]
  · intro s id h
    have hres : handleResponseV1 id s =
        { s with pendings := removeId s.pendings id
                 activeTimers := s.activeTimers.filter (fun x => x != id)
                 outcomes := (id, ReqOutcome.resolved) :: s.outcomes } := by
      unfold handleResponseV1
      rw [if_pos h]
    rw [hres]
    exact ⟨lookupId_removeId id s.pendings, not_mem_filter_ne id s.activeTimers,
           List.mem_cons_self _ _⟩
  · intro s id h
    have hres : fireTimeoutV1 id s =
        { s with pendings := removeId s.pendings id
                 activeTimers := s.activeTimers.filter (fun x => x != id)
                 outcomes := (id, ReqOutcome.timedOut) :: s.outcomes } := by
      unfold fireTimeoutV1
      rw [if_pos h]
    rw [hres]
    exact ⟨lookupId_removeId id s.pendings, not_mem_filter_ne id s.activeTimers,
           List.mem_cons_self _ _⟩
  · intro s
    refine ⟨rfl, rfl, rfl, rfl, ?_⟩
    intro p hp
    apply List.mem_append_left
    exact List.mem_map.mpr ⟨p, hp, rfl⟩

/-- Witness for C3: a concrete state with an open socket and one
outstanding request. -/
theorem pending_request_lifecycle_witness :
    lookupId
      (requestV1 "a1"
        { pendings := [], activeTimers := [], outcomes := [],
          heartbeatTimer := true, reconnectTimer := false,
          wsOpen := true }).pendings "a1" = some 15000 ∧
    lookupId
      (handleResponseV1 "b2"
        { pendings := [("b2", 15000)], activeTimers := ["b2"], outcomes := [],
          heartbeatTimer := true, reconnectTimer := false,
          wsOpen := true }).pendings "b2" = none :=
  ⟨(pending_request_lifecycle.1
      { pendings := [], activeTimers := [], outcomes := [],
        heartbeatTimer := true, reconnectTimer := false, wsOpen := true }
      "a1" rfl).1,
   (pending_request_lifecycle.2.1
      { pendings := [("b2", 15000)], activeTimers := ["b2"], outcomes := [],
        heartbeatTimer := true, reconnectTimer := false, wsOpen := true }
      "b2" (by decide)).1⟩

/-- C4: a connect error whose code is `NOT_PAIRED` (or whose message
contains that substring) moves the state machine to `PAIRING`, not
`DISCONNECTED`; a socket close from `PAIRING` still schedules an
automatic reconnect; every other connect error transitions to
`DISCONNECTED` with the error message surfaced verbatim. -/
theorem not_paired_enters_pairing :
    (∀ (code msg devId : Option String) (s : GatewayState),
       isNotPairedError ((jsOrNull code).getD "")
           ((jsOrNull msg).getD "Connect rejected") = true →
       (handleConnectError code msg devId s).connection.state = .PAIRING ∧
       (handleConnectError code msg devId s).connection.state ≠ .DISCONNECTED) ∧
    (∀ (r : ℚ) (s : GatewayState), s.connection.state = .PAIRING →
       (onClose r s).connection.state = .RECONNECTING ∧
       (onClose r s).reconnectTimer = true) ∧
    (∀ (code msg devId : Option String) (s : GatewayState) (m : String),
       jsOrNull msg = some m →
       isNotPairedError ((jsOrNull code).getD "") m = false →
       (handleConnectError code msg devId s).connection =
         { state := .DISCONNECTED, error := some m }) := by
  refine ⟨?_, ?_, ?_⟩
  · intro code msg devId s h
    constructor <;> simp [handleConnectError, h, setState]
  · intro r s h
    constructor <;> simp [onClose, h, scheduleReconnect, setState, cleanupV3]
  · intro code msg devId s m hm h
    simp [handleConnectError, hm, h, setState, cleanupV3]

/-- Witness for C4: the `NOT_PAIRED` code enters pairing; a close from a
pairing state schedules the reconnect; a plain error is surfaced. -/
theorem not_paired_enters_pairing_witness :
    (handleConnectError (some "NOT_PAIRED") none (some "dev1")
        { connection := { state := .CONNECTING, error := none },
          reconnectAttempt := 0, reconnectTimer := false,
          connectTimer := false, heartbeatTimer := false,
          authenticated := false, connectSent := true,
          wsPresent := true }).connection.state = .PAIRING ∧
    (onClose 0
        { connection := { state := .PAIRING, error := some "dev1" },
          reconnectAttempt := 0, reconnectTimer := false,
          connectTimer := false, heartbeatTimer := false,
          authenticated := false, connectSent := true,
          wsPresent := true }).connection.state = .RECONNECTING ∧
    (handleConnectError (some "AUTH_FAILED") (some "bad token") none
        { connection := { state := .CONNECTING, error := none },
          reconnectAttempt := 0, reconnectTimer := false,
          connectTimer := false, heartbeatTimer := false,
          authenticated := false, connectSent := true,
          wsPresent := true }).connection =
      { state := .DISCONNECTED, error := some "bad token" } :=
  ⟨(not_paired_enters_pairing.1 (some "NOT_PAIRED") none (some "dev1")
      { connection := { state := .CONNECTING, error := none },
        reconnectAttempt := 0, reconnectTimer := false,
        connectTimer := false, heartbeatTimer := false,
        authenticated := false, connectSent := true,
        wsPresent := true } (by decide)).1,
   (not_paired_enters_pairing.2.1 0
      { connection := { state := .PAIRING, error := some "dev1" },
        reconnectAttempt := 0, reconnectTimer := false,
        connectTimer := false, heartbeatTimer := false,
        authenticated := false, connectSent := true,
        wsPresent := true } rfl).1,
   not_paired_enters_pairing.2.2 (some "AUTH_FAILED") (some "bad token") none
      { connection := { state := .CONNECTING, error := none },
        reconnectAttempt := 0, reconnectTimer := false,
        connectTimer := false, heartbeatTimer := false,
        authenticated := false, connectSent := true,
        wsPresent := true } "bad token" (by decide) (by decide)⟩
